import Mathlib

set_option maxHeartbeats 1000000

namespace Haier

/-!
Shallow embedding of `custom_components/haier/core/client.py`.

Python strings are embedded as `String` (or `List Char` where character-level
rewriting matters), JSON values as the `Json` inductive below, Python
exceptions as `Except PyErr`, and awaited I/O results as explicit parameters.
-/

/-- JSON values as produced by Python's json.loads. Numbers are modelled as
integers (no claim depends on float arithmetic); objects are association
lists with the unique keys that json.loads yields (on duplicate keys the
parser keeps a single binding, so lookup is first-match over unique keys). -/
inductive Json where
  | null
  | bool (b : Bool)
  | num (n : Int)
  | str (s : String)
  | arr (elems : List Json)
  | obj (fields : List (String × Json))

/-- Python exceptions that the embedded code can raise.
`haierException` embeds `HaierClientException` from client.py. -/
inductive PyErr where
  | keyError
  | typeError
  | valueError
  | runtimeError
  | haierException (msg : String)
deriving DecidableEq, Repr

/-- Key lookup in a JSON object (Python dict from json.loads). -/
def lookupField : List (String × Json) → String → Option Json
  | [], _ => none
  | (k, v) :: rest, key => if k == key then some v else lookupField rest key

/-- Python `x == lit` between a JSON value and a string literal: true exactly
when `x` is that string. -/
def Json.eqStr : Json → String → Bool
  | .str s, t => s == t
  | _, _ => false

/-- Python `==` between two hashable JSON values used as dict keys.
(The Python cross-type equality `True == 1` is not modelled; no claim
involves such keys.) -/
def Json.keyEq : Json → Json → Bool
  | .null, .null => true
  | .bool a, .bool b => a == b
  | .num a, .num b => a == b
  | .str a, .str b => a == b
  | _, _ => false

/-- Whether a JSON value is hashable in Python (usable as a dict key). -/
def Json.hashable : Json → Bool
  | .arr _ => false
  | .obj _ => false
  | _ => true

/-- `pat` is a prefix of `s` (character-wise). -/
def leadsWith : List Char → List Char → Bool
  | [], _ => true
  | _ :: _, [] => false
  | p :: ps, c :: cs => p == c && leadsWith ps cs

/-- `pat` occurs as a contiguous substring of `s`. -/
def hasOccurrence (pat : List Char) : List Char → Bool
  | [] => leadsWith pat []
  | s@(_ :: cs) => leadsWith pat s || hasOccurrence pat cs

/-- Python `needle in x` for a string `needle`: dict membership tests keys,
list membership tests elements, string membership is a substring test;
anything else raises TypeError. -/
def pyInStr (needle : String) : Json → Except PyErr Bool
  | .obj fields => .ok (lookupField fields needle).isSome
  | .arr elems => .ok (elems.any (fun e => e.eqStr needle))
  | .str s => .ok (hasOccurrence needle.toList s.toList)
  | _ => .error .typeError

/-- Python `x[key]` with a string key: dict lookup (KeyError if absent);
subscripting a list, string or scalar with a string raises TypeError. -/
def Json.getItem : Json → String → Except PyErr Json
  | .obj fields, key =>
    match lookupField fields key with
    | some v => .ok v
    | none => .error .keyError
  | _, _ => .error .typeError

/-- Python truthiness of a JSON value. -/
def Json.pyTruthy : Json → Bool
  | .null => false
  | .bool b => b
  | .num n => n != 0
  | .str s => s != ""
  | .arr l => !l.isEmpty
  | .obj f => !f.isEmpty

/-- Python `for x in j`: lists yield elements, strings yield one-character
strings, dicts yield their keys; anything else raises TypeError. -/
def pyIter : Json → Except PyErr (List Json)
  | .arr l => .ok l
  | .str s => .ok (s.toList.map (fun c => Json.str (String.singleton c)))
  | .obj fs => .ok (fs.map (fun p => Json.str p.1))
  | _ => .error .typeError

/-- Python dict assignment `m[k] = v`: raises TypeError on an unhashable key,
updates the existing binding in place, otherwise appends. -/
def dictSet (m : List (Json × Json)) (k v : Json) : Except PyErr (List (Json × Json)) :=
  if !k.hashable then .error .typeError
  else if m.any (fun p => p.1.keyEq k) then
    .ok (m.map (fun p => if p.1.keyEq k then (p.1, v) else p))
  else .ok (m ++ [(k, v)])

/-- Lookup in the dict model (first matching key; keys are unique). -/
def dictLookup (m : List (Json × Json)) (k : Json) : Option Json :=
  match m with
  | [] => none
  | p :: rest => if p.1.keyEq k then some p.2 else dictLookup rest k

/-- Embeds Python `s.replace(ch, '')` for a one-character pattern: scanning
left to right, every occurrence of `ch` is removed. -/
def removeChar (pat : Char) : List Char → List Char
  | [] => []
  | c :: rest => if c == pat then removeChar pat rest else c :: removeChar pat rest

/-- The whitespace characters named by the spec: space, tab, CR, LF. -/
def wsChar (c : Char) : Bool :=
  c == ' ' || c == '\t' || c == '\r' || c == '\n'

/-! CPython `urllib.parse.urlparse(url).path`, the part `_sign` uses.
Modelled after CPython urlsplit plus the params split of urlparse:
remove tab/CR/LF, strip leading C0-control-or-space characters, strip a
`scheme:` prefix, strip a `//netloc` component, drop fragment and query,
and split trailing `;params` off the last path segment. -/

/-- Valid scheme characters after the first (ASCII letters, digits, `+-.`). -/
def schemeChar (c : Char) : Bool :=
  c.isAlpha || c.isDigit || c == '+' || c == '-' || c == '.'

/-- urlsplit: tab, CR and LF are removed from the URL before parsing. -/
def removeUnsafeUrlChars (s : List Char) : List Char :=
  s.filter (fun c => !(c == '\t' || c == '\r' || c == '\n'))

/-- C0 control characters and space, stripped from the front by urlsplit. -/
def c0OrSpace (c : Char) : Bool := c.toNat ≤ 32

/-- urlsplit scheme handling: if there is a colon at position i > 0 and the
characters before it form `alpha (alpha|digit|+|-|.)*`, drop through it. -/
def stripScheme (s : List Char) : List Char :=
  let pre := s.takeWhile (fun c => c != ':')
  if pre.length == 0 || pre.length == s.length then s
  else
    match pre with
    | [] => s
    | c :: rest =>
      if c.isAlpha && rest.all schemeChar then s.drop (pre.length + 1) else s

/-- urlsplit netloc handling: after `//`, the netloc extends to the next
`/`, `?` or `#`; the remainder (starting at that delimiter) is kept. -/
def stripNetloc (s : List Char) : List Char :=
  match s with
  | '/' :: '/' :: rest =>
    let nl := rest.takeWhile (fun c => !(c == '/' || c == '?' || c == '#'))
    rest.drop nl.length
  | _ => s

/-- urlparse params handling: if the path contains `;`, split params off —
after the last `/` when the path contains one, otherwise at the first `;`. -/
def splitParamsPath (p : List Char) : List Char :=
  if p.contains ';' then
    if p.contains '/' then
      let revTail := p.reverse.takeWhile (fun c => c != '/')
      let tl := revTail.reverse
      let hd := p.take (p.length - tl.length)
      if tl.contains ';' then hd ++ tl.takeWhile (fun c => c != ';') else p
    else p.takeWhile (fun c => c != ';')
  else p

/-- `urlparse(url).path` as used by `HaierClient._sign`. -/
def urlparsePath (url : List Char) : List Char :=
  let u0 := (removeUnsafeUrlChars url).dropWhile c0OrSpace
  let u1 := stripScheme u0
  let u2 := stripNetloc u1
  let u3 := u2.takeWhile (fun c => c != '#')
  let u4 := u3.takeWhile (fun c => c != '?')
  splitParamsPath u4

/-- `HaierClient._sign` (client.py lines 480-488): SHA-256 hex digest of
`urlparse(url).path + body.replace('\t','').replace('\r','').replace('\n','')
.replace(' ','') + app_id + app_key + timestamp`. The SHA-256 hex digest
itself (hashlib, an external library) is abstracted as the `sha256hex`
parameter; everything else is computed exactly as the source does. -/
def sign (sha256hex : List Char → String)
    (app_id app_key timestamp body url : List Char) : String :=
  let content := urlparsePath url
      ++ removeChar ' ' (removeChar '\n' (removeChar '\r' (removeChar '\t' body)))
      ++ app_id ++ app_key ++ timestamp
  sha256hex content

/-- Stated from the spec's words (4.1): the concatenation of the URL path
with query stripped, the body with all whitespace characters (space, tab,
CR, LF) removed, appId, appKey and the timestamp, in that order with no
separators. -/
def signContentSpec (app_id app_key timestamp body url : List Char) : List Char :=
  urlparsePath url ++ body.filter (fun c => !wsChar c) ++ app_id ++ app_key ++ timestamp

/-! The gateway URL rewrite of `_get_wss_gateway_url` (client.py line 448):
`content['agAddr'].replace('http://', 'wss://')`. -/

def httpPat : List Char := ['h', 't', 't', 'p', ':', '/', '/']

def wssPat : List Char := ['w', 's', 's', ':', '/', '/']

/-- Embeds Python `s.replace('http://', 'wss://')`: scanning left to right,
each non-overlapping occurrence of `http://` is replaced by `wss://`. -/
def replaceHttpWss : List Char → List Char
  | [] => []
  | c :: cs =>
    if leadsWith httpPat (c :: cs) then wssPat ++ replaceHttpWss (cs.drop 6)
    else c :: replaceHttpWss cs
termination_by s => s.length
decreasing_by
  · simp only [List.length_drop, List.length_cons]
    omega
  · simp

/-- `HaierClient._assert_response_successful` (client.py lines 475-478):
`if 'retCode' in resp and resp['retCode'] != '00000':
  raise HaierClientException('接口返回异常: ' + resp['retInfo'])`.
(Concatenating the literal with a non-string retInfo raises TypeError.) -/
def assertResponseSuccessful (resp : Json) : Except PyErr Unit :=
  match pyInStr "retCode" resp with
  | .error e => .error e
  | .ok false => .ok ()
  | .ok true =>
    match resp.getItem "retCode" with
    | .error e => .error e
    | .ok rc =>
      if rc.eqStr "00000" then .ok ()
      else
        match resp.getItem "retInfo" with
        | .error e => .error e
        | .ok (.str info) => .error (.haierException ("接口返回异常: " ++ info))
        | .ok _ => .error .typeError

/-- Result of `get_digital_model`: the attributes value, plus whether the
warning branch ("Device ... get digital model fail") was taken. -/
structure GdmResult where
  attributes : Json
  warned : Bool

/-- `HaierClient.get_digital_model` (client.py lines 133-159), applied to the
already-received response JSON `content`; `loads` embeds `json.loads` on the
per-device detail string. After the envelope check: if `deviceId` is not in
`content['detailInfo']`, log a warning and return `[]`; otherwise return
`json.loads(content['detailInfo'][deviceId])['attributes']`. -/
def getDigitalModel (loads : String → Except PyErr Json)
    (content : Json) (deviceId : String) : Except PyErr GdmResult :=
  match assertResponseSuccessful content with
  | .error e => .error e
  | .ok _ =>
    match content.getItem "detailInfo" with
    | .error e => .error e
    | .ok detail =>
      match pyInStr deviceId detail with
      | .error e => .error e
      | .ok has =>
        if !has then .ok ⟨.arr [], true⟩
        else
          match detail.getItem deviceId with
          | .error e => .error e
          | .ok (.str s) =>
            match loads s with
            | .error e => .error e
            | .ok parsed =>
              match parsed.getItem "attributes" with
              | .error e => .error e
              | .ok attrs => .ok ⟨attrs, false⟩
          | .ok _ => .error .typeError

/-- Modelled from the spec: device metadata record from the repository's
`core/device.py` module, which is not present under src/; only the fields
that `get_digital_model_from_cache` persists are needed (3. DATA MODEL:
Device {id, name, type, productCode, productName, wifiType}). -/
structure DeviceMeta where
  id : String
  name : String
  devType : String
  product_code : String
  product_name : String
  wifi_type : String

/-- The awaited I/O outcomes of one `get_digital_model_from_cache` call:
what `store.async_load` produced (`.ok none` = no stored file) and what
`get_digital_model` would produce if called. -/
structure CacheEnv where
  loadResult : Except PyErr (Option Json)
  remoteResult : Except PyErr GdmResult

/-- Observable outcome of `get_digital_model_from_cache`: its return value
or exception, whether `store.async_remove` was called, what (if anything)
`store.async_save` persisted, and whether the remote fetch was made. -/
structure CacheOutcome where
  result : Except PyErr Json
  removed : Bool
  saved : Option Json
  remoteCalled : Bool

/-- The record persisted by `get_digital_model_from_cache`:
`{'device': {'name','type','product_code','product_name','wifi_type'}, 'attributes': ...}`. -/
def cachePayload (device : DeviceMeta) (attributes : Json) : Json :=
  .obj [("device", .obj [
          ("name", .str device.name),
          ("type", .str device.devType),
          ("product_code", .str device.product_code),
          ("product_name", .str device.product_name),
          ("wifi_type", .str device.wifi_type)]),
        ("attributes", attributes)]

/-- `HaierClient.get_digital_model_from_cache` (client.py lines 161-195).
try: load; a bare string raises RuntimeError; any exception in the try is
caught, the store removed and the cache set to None. Then `if cache:` —
truthy cache returns `cache['attributes']`; otherwise fetch remotely,
persist `{device, attributes}` and return the fetched attributes. -/
def getDigitalModelFromCache (env : CacheEnv) (device : DeviceMeta) : CacheOutcome :=
  let step : Option Json × Bool :=
    match env.loadResult with
    | .error _ => (none, true)
    | .ok none => (none, false)
    | .ok (some (.str _)) => (none, true)
    | .ok (some j) => (some j, false)
  let cache := step.1
  let removed := step.2
  match cache with
  | some j =>
    if j.pyTruthy then
      { result := j.getItem "attributes", removed := removed, saved := none,
        remoteCalled := false }
    else
      match env.remoteResult with
      | .error e =>
        { result := .error e, removed := removed, saved := none, remoteCalled := true }
      | .ok gr =>
        { result := .ok gr.attributes, removed := removed,
          saved := some (cachePayload device gr.attributes), remoteCalled := true }
  | none =>
    match env.remoteResult with
    | .error e =>
      { result := .error e, removed := removed, saved := none, remoteCalled := true }
    | .ok gr =>
      { result := .ok gr.attributes, removed := removed,
        saved := some (cachePayload device gr.attributes), remoteCalled := true }

/-- The snapshot-building loop shared verbatim by `_parse_message`
(client.py lines 385-391) and `get_device_snapshot_data` (lines 203-213):
`for attribute in attrs: if 'value' not in attribute: continue;
 d[attribute['name']] = attribute['value']`
(Python evaluates the right-hand side `attribute['value']` before the
subscript `attribute['name']` of the assignment target). -/
def buildSnapshotAux : List Json → List (Json × Json) → Except PyErr (List (Json × Json))
  | [], acc => .ok acc
  | attr :: rest, acc =>
    match pyInStr "value" attr with
    | .error e => .error e
    | .ok false => buildSnapshotAux rest acc
    | .ok true =>
      match attr.getItem "value" with
      | .error e => .error e
      | .ok v =>
        match attr.getItem "name" with
        | .error e => .error e
        | .ok k =>
          match dictSet acc k v with
          | .error e => .error e
          | .ok acc2 => buildSnapshotAux rest acc2

/-- The snapshot mapping derived from an attribute list (starting from the
empty dict, as both call sites do). -/
def buildSnapshot (attrs : List Json) : Except PyErr (List (Json × Json)) :=
  buildSnapshotAux attrs []

/-- `HaierClient.get_device_snapshot_data` (client.py lines 197-213),
applied to the digital-model response JSON. -/
def getDeviceSnapshotData (loads : String → Except PyErr Json)
    (content : Json) (deviceId : String) : Except PyErr (List (Json × Json)) :=
  match getDigitalModel loads content deviceId with
  | .error e => .error e
  | .ok gr =>
    match pyIter gr.attributes with
    | .error e => .error e
    | .ok items => buildSnapshotAux items []

/-- The decoding primitives `_parse_message` uses, as abstract partial
functions: `json.loads` (on text or decoded bytes), `base64.b64decode`,
and `zlib.decompress(..., 16 + MAX_WBITS)` followed by `.decode('utf-8')`.
Decoded byte strings are carried as `String`. -/
structure Codecs where
  jsonLoads : String → Except PyErr Json
  b64decode : String → Except PyErr String
  gzipDecompress : String → Except PyErr String

/-- What one `_parse_message` call does when it does not raise: either the
frame is ignored (early return), or a device-data-changed event is fired
with the given deviceId and snapshot. -/
inductive ParseOutcome where
  | ignored
  | fired (deviceId : Json) (attributes : List (Json × Json))

/-- `HaierClient._parse_message` (client.py lines 326-398): parse the JSON
envelope; return early unless `topic == 'GenMsgDown'` and
`content['businType'] == 'DigitalModel'`; base64-decode `content['data']`,
parse it, read `dev`, base64-decode and gzip-decompress `args`, parse the
result, and build the snapshot from its `attributes`; then fire
EVENT_DEVICE_DATA_CHANGED. Any failure raises out of the function. -/
def parseMessage (c : Codecs) (msg : String) : Except PyErr ParseOutcome :=
  match c.jsonLoads msg with
  | .error e => .error e
  | .ok m =>
    match m.getItem "topic" with
    | .error e => .error e
    | .ok topic =>
      if !topic.eqStr "GenMsgDown" then .ok .ignored
      else
        match m.getItem "content" with
        | .error e => .error e
        | .ok content =>
          match content.getItem "businType" with
          | .error e => .error e
          | .ok bt =>
            if !bt.eqStr "DigitalModel" then .ok .ignored
            else
              match content.getItem "data" with
              | .error e => .error e
              | .ok (.str dataB64) =>
                match c.b64decode dataB64 with
                | .error e => .error e
                | .ok dataBytes =>
                  match c.jsonLoads dataBytes with
                  | .error e => .error e
                  | .ok data =>
                    match data.getItem "dev" with
                    | .error e => .error e
                    | .ok deviceId =>
                      match data.getItem "args" with
                      | .error e => .error e
                      | .ok (.str argsB64) =>
                        match c.b64decode argsB64 with
                        | .error e => .error e
                        | .ok argsBytes =>
                          match c.gzipDecompress argsBytes with
                          | .error e => .error e
                          | .ok rawText =>
                            match c.jsonLoads rawText with
                            | .error e => .error e
                            | .ok payload =>
                              match payload.getItem "attributes" with
                              | .error e => .error e
                              | .ok attrsVal =>
                                match pyIter attrsVal with
                                | .error e => .error e
                                | .ok attrs =>
                                  match buildSnapshotAux attrs [] with
                                  | .error e => .error e
                                  | .ok snap => .ok (.fired deviceId snap)
                      | .ok _ => .error .typeError
              | .ok _ => .error .typeError

/-! Model of the `listen_devices` session loop (client.py lines 216-301).

One loop iteration is driven by a script describing what the environment
did: either the connection attempt failed before the control listener was
registered at line 268 (`ws_connect` or the `BoundDevs` send raised), or a
session ran, delivering a list of frames and then ending (socket closed
normally, or raised a socket-level error). The cancel signal is modelled as
observed at the `while` head; a signal observed inside the read loop makes
the frame list end early and the iteration finish without error, which the
same model covers.

The local variable `cancel_control_listen` is bound at line 268 and keeps
its binding across loop iterations; the `finally` block calls it
unconditionally, which raises UnboundLocalError — terminating
`listen_devices` — when no iteration has bound it yet. (Calling a stale
unbinder from an earlier iteration is harmless: Home Assistant's remove
callback only logs when the listener is already gone.) -/

/-- One inbound websocket message: a text frame, or a frame of another type
(logged and skipped at line 279). -/
inductive WsMsg where
  | text (data : String)
  | other

/-- How the connection part of one iteration went. -/
inductive SessionEnd where
  | closed
  | socketError
deriving DecidableEq, Repr

/-- Script for one iteration of the `while` loop. -/
inductive ConnScript where
  | failBefore
  | session (frames : List WsMsg) (tail : SessionEnd)

/-- Events observable from one session, in order: the two
EVENT_GATEWAY_STATUS_CHANGED emissions, EVENT_DEVICE_DATA_CHANGED
emissions, and the 30-second sleeps of the except path. -/
inductive SessEvent where
  | gatewayStatus (status : Bool)
  | deviceData (deviceId : Json) (attributes : List (Json × Json))
  | slept (seconds : Nat)

/-- The read loop (lines 275-283): each text frame goes through
`_parse_message`; fired events accumulate until a frame raises, which
aborts the loop with that exception. Returns the events of the processed
frames and the exception, if any. -/
def processFrames (c : Codecs) : List WsMsg → List SessEvent × Option PyErr
  | [] => ([], none)
  | .text s :: rest =>
    match parseMessage c s with
    | .error e => ([], some e)
    | .ok .ignored => processFrames c rest
    | .ok (.fired d a) =>
      let r := processFrames c rest
      (.deviceData d a :: r.1, r.2)
  | .other :: rest => processFrames c rest

/-- Result of one iteration of the `while` loop. -/
structure IterOut where
  events : List SessEvent
  bound : Bool
  crashed : Bool

/-- One iteration of the `while` loop of `listen_devices`, for a session
whose generated process id is `pid` while
`hass.data['current_listen_devices_process_id']` holds `recordedPid`.
Event order follows the source: the unguarded status-True emission at line
270 happens right after the listener registration; an exception reaches the
bare `except:` which sleeps 30 seconds (line 287); the `finally` block then
calls `cancel_control_listen()` (UnboundLocalError if never bound) and
emits status-False only when `pid` matches `recordedPid` (lines 293-299). -/
def listenIter (c : Codecs) (pid recordedPid : String) (bound : Bool)
    (script : ConnScript) : IterOut :=
  match script with
  | .failBefore =>
    if bound then
      { events := [.slept 30] ++
          (if pid == recordedPid then [.gatewayStatus false] else []),
        bound := true, crashed := false }
    else
      { events := [.slept 30], bound := false, crashed := true }
  | .session frames tail =>
    let r := processFrames c frames
    let excPath := r.2.isSome || tail == .socketError
    { events := .gatewayStatus true :: r.1
        ++ (if excPath then [.slept 30] else [])
        ++ (if pid == recordedPid then [.gatewayStatus false] else []),
      bound := true, crashed := false }

/-- How a run of the `while` loop ended (within the given fuel). -/
inductive LoopExit where
  | cancelled
  | crashed
  | fuelOut
deriving DecidableEq, Repr

/-- The `while not signal.is_set()` loop of `listen_devices`: `signal i` is
the cancel signal as observed at the head of iteration `i`, `scripts i`
drives iteration `i`. Returns all events in order and how the loop ended. -/
def listenLoop (c : Codecs) (pid recordedPid : String) (signal : Nat → Bool)
    (scripts : Nat → ConnScript) : Nat → Nat → Bool → List SessEvent × LoopExit
  | 0, _, _ => ([], .fuelOut)
  | fuel + 1, i, bound =>
    if signal i then ([], .cancelled)
    else
      let out := listenIter c pid recordedPid bound (scripts i)
      if out.crashed then (out.events, .crashed)
      else
        let r := listenLoop c pid recordedPid signal scripts fuel (i + 1) out.bound
        (out.events ++ r.1, r.2)

/-! Concrete fixtures for counterexamples and witnesses. `cDemo` is a
concrete `Codecs` instance: `"GOOD"` decodes through the full pipeline to a
digital-model push for device `dev-1`, `"T1"`/`"T2"` are frames rejected by
the topic/businType filters, and every other input fails to parse. -/

def goodEnvelope : Json :=
  .obj [("agClientId", .str "tok"),
        ("topic", .str "GenMsgDown"),
        ("content", .obj [("businType", .str "DigitalModel"),
                          ("data", .str "D64"),
                          ("dataFmt", .str ""),
                          ("sn", .str "sn1")])]

def goodInner : Json := .obj [("args", .str "A64"), ("dev", .str "dev-1")]

def goodPayload : Json :=
  .obj [("alarms", .arr []),
        ("attributes", .arr [.obj [("name", .str "targetTemp"),
                                   ("value", .str "42")]]),
        ("businessAttr", .arr [])]

def wrongTopicEnvelope : Json :=
  .obj [("topic", .str "Other"), ("content", .obj [])]

def wrongBusinEnvelope : Json :=
  .obj [("topic", .str "GenMsgDown"),
        ("content", .obj [("businType", .str "Else")])]

def cDemo : Codecs where
  jsonLoads := fun s =>
    if s == "GOOD" then .ok goodEnvelope
    else if s == "DBYTES" then .ok goodInner
    else if s == "RAW" then .ok goodPayload
    else if s == "T1" then .ok wrongTopicEnvelope
    else if s == "T2" then .ok wrongBusinEnvelope
    else .error .valueError
  b64decode := fun s =>
    if s == "D64" then .ok "DBYTES"
    else if s == "A64" then .ok "ZBYTES"
    else .error .valueError
  gzipDecompress := fun s =>
    if s == "ZBYTES" then .ok "RAW" else .error .valueError

def demoDevice : DeviceMeta :=
  { id := "dev-1", name := "Heater", devType := "t", product_code := "pc",
    product_name := "pn", wifi_type := "wt" }

/-- A truthy persisted record of the wrong shape: a dict without an
`attributes` key. -/
def cexCacheEnv : CacheEnv :=
  { loadResult := .ok (some (.obj [("device", .null)])),
    remoteResult := .ok ⟨.arr [], false⟩ }

/-- A bare-string persisted record, with the remote fetch succeeding. -/
def strCacheEnv : CacheEnv :=
  { loadResult := .ok (some (.str "junk")),
    remoteResult := .ok ⟨.arr [], false⟩ }

/-- A well-shaped cached record; the remote side would fail if contacted. -/
def hitCacheEnv : CacheEnv :=
  { loadResult := .ok (some (.obj [("attributes", .arr [])])),
    remoteResult := .error .valueError }

/-- Authoritativeness of a gateway session: its process id equals the
recorded `current_listen_devices_process_id`. -/
def authoritative (pid recordedPid : String) : Bool := pid == recordedPid

/-! Helper lemmas. -/

theorem removeChar_eq_filter (p : Char) (l : List Char) :
    removeChar p l = l.filter (fun c => !(c == p)) := by
  induction l with
  | nil => rfl
  | cons c cs ih =>
    by_cases h : c = p
    · simp [removeChar, h, ih]
    · have hb : (c == p) = false := by simp [h]
      simp [removeChar, hb, ih]

theorem leadsWith_append (p t : List Char) : leadsWith p (p ++ t) = true := by
  induction p with
  | nil => rfl
  | cons c cs ih => simp [leadsWith, ih]

theorem leadsWith_self (p : List Char) : leadsWith p p = true := by
  have := leadsWith_append p []
  simpa using this

theorem hasOccurrence_self_append (pat pre : List Char) :
    hasOccurrence pat (pre ++ pat) = true := by
  induction pre with
  | nil =>
    cases pat with
    | nil => rfl
    | cons c cs => simp [hasOccurrence, leadsWith_self]
  | cons a pre ih => simp [hasOccurrence, ih]

theorem keyEq_true_eq {a b : Json} (h : a.keyEq b = true) : a = b := by
  cases a <;> cases b <;> simp_all [Json.keyEq]

theorem keyEq_refl {a : Json} (h : a.hashable = true) : a.keyEq a = true := by
  cases a <;> simp_all [Json.keyEq, Json.hashable]

theorem getItem_ok {j : Json} {key : String} {v : Json}
    (h : j.getItem key = .ok v) :
    ∃ fields, j = .obj fields ∧ lookupField fields key = some v := by
  cases j <;> simp [Json.getItem] at h
  case obj fields =>
    cases hl : lookupField fields key <;> simp [hl] at h
    exact ⟨fields, rfl, by rw [hl, h]⟩

theorem dictSet_ok_hashable {m : List (Json × Json)} {k v : Json} {m2 : List (Json × Json)}
    (h : dictSet m k v = .ok m2) : k.hashable = true := by
  by_cases hh : k.hashable = true
  · exact hh
  · exfalso
    have hh' : k.hashable = false := Bool.eq_false_iff.mpr hh
    simp [dictSet, hh'] at h

theorem dictLookup_map_update {k v : Json} :
    ∀ m : List (Json × Json), m.any (fun p => p.1.keyEq k) = true →
    dictLookup (m.map (fun p => if p.1.keyEq k then (p.1, v) else p)) k = some v := by
  intro m
  induction m with
  | nil => simp
  | cons p rest ih =>
    intro hany
    by_cases hp : p.1.keyEq k = true
    · simp [hp, dictLookup]
    · have hp' : p.1.keyEq k = false := Bool.eq_false_iff.mpr hp
      have : rest.any (fun q => q.1.keyEq k) = true := by
        simp [List.any_cons, hp'] at hany
        simpa using hany
      simp [dictLookup, hp', ih this]

theorem dictLookup_append_new {k v : Json} (hk : k.hashable = true) :
    ∀ m : List (Json × Json), m.any (fun p => p.1.keyEq k) = false →
    dictLookup (m ++ [(k, v)]) k = some v := by
  intro m
  induction m with
  | nil => simp [dictLookup, keyEq_refl hk]
  | cons p rest ih =>
    intro hany
    simp [List.any_cons] at hany
    simp [dictLookup, hany.1, ih (by simpa using hany.2)]

theorem dictSet_ok_lookup_self {m m2 : List (Json × Json)} {k v : Json}
    (h : dictSet m k v = .ok m2) : dictLookup m2 k = some v := by
  have hk := dictSet_ok_hashable h
  simp [dictSet, hk] at h
  by_cases hany : m.any (fun p => p.1.keyEq k) = true
  · rw [hany] at h
    simp at h
    rw [← h]
    exact dictLookup_map_update m hany
  · have hany' : m.any (fun p => p.1.keyEq k) = false := Bool.eq_false_iff.mpr hany
    rw [hany'] at h
    simp at h
    rw [← h]
    exact dictLookup_append_new hk m hany'

theorem dictLookup_map_cases {k v : Json} :
    ∀ m : List (Json × Json), ∀ k2 v2,
    dictLookup (m.map (fun p => if p.1.keyEq k then (p.1, v) else p)) k2 = some v2 →
    (k2 = k ∧ v2 = v) ∨ dictLookup m k2 = some v2 := by
  intro m
  induction m with
  | nil =>
    intro k2 v2 hl
    simp [dictLookup] at hl
  | cons p rest ih =>
    intro k2 v2
    by_cases hp : p.1.keyEq k = true
    · by_cases hp2 : p.1.keyEq k2 = true
      · intro hl
        have e1 : p.1 = k := keyEq_true_eq hp
        have e2 : p.1 = k2 := keyEq_true_eq hp2
        simp [hp, dictLookup, hp2] at hl
        exact Or.inl ⟨e1 ▸ e2.symm, hl.symm⟩
      · have hp2' : p.1.keyEq k2 = false := Bool.eq_false_iff.mpr hp2
        intro hl
        simp [hp, dictLookup, hp2'] at hl
        rcases ih k2 v2 hl with h1 | h2
        · exact Or.inl h1
        · exact Or.inr (by simp [dictLookup, hp2', h2])
    · have hp' : p.1.keyEq k = false := Bool.eq_false_iff.mpr hp
      by_cases hp2 : p.1.keyEq k2 = true
      · intro hl
        simp [hp', dictLookup, hp2] at hl
        exact Or.inr (by simp [dictLookup, hp2, hl])
      · have hp2' : p.1.keyEq k2 = false := Bool.eq_false_iff.mpr hp2
        intro hl
        simp [hp', dictLookup, hp2'] at hl
        rcases ih k2 v2 hl with h1 | h2
        · exact Or.inl h1
        · exact Or.inr (by simp [dictLookup, hp2', h2])

theorem dictLookup_append_cases {k v : Json} :
    ∀ m : List (Json × Json), ∀ k2 v2,
    dictLookup (m ++ [(k, v)]) k2 = some v2 →
    (k2 = k ∧ v2 = v) ∨ dictLookup m k2 = some v2 := by
  intro m
  induction m with
  | nil =>
    intro k2 v2 hl
    by_cases hk2 : k.keyEq k2 = true
    · have e := keyEq_true_eq hk2
      simp [dictLookup, hk2] at hl
      exact Or.inl ⟨e.symm, hl.symm⟩
    · have hk2' : k.keyEq k2 = false := Bool.eq_false_iff.mpr hk2
      simp [dictLookup, hk2'] at hl
  | cons p rest ih =>
    intro k2 v2
    by_cases hp2 : p.1.keyEq k2 = true
    · intro hl
      simp [dictLookup, hp2] at hl
      exact Or.inr (by simp [dictLookup, hp2, hl])
    · have hp2' : p.1.keyEq k2 = false := Bool.eq_false_iff.mpr hp2
      intro hl
      simp [dictLookup, hp2'] at hl
      rcases ih k2 v2 hl with h1 | h2
      · exact Or.inl h1
      · exact Or.inr (by simp [dictLookup, hp2', h2])

theorem dictSet_ok_lookup {m m2 : List (Json × Json)} {k v : Json}
    (h : dictSet m k v = .ok m2) :
    ∀ k2 v2, dictLookup m2 k2 = some v2 → (k2 = k ∧ v2 = v) ∨ dictLookup m k2 = some v2 := by
  have hk := dictSet_ok_hashable h
  simp [dictSet, hk] at h
  intro k2 v2 hl
  by_cases hany : m.any (fun p => p.1.keyEq k) = true
  · rw [hany] at h
    simp at h
    subst h
    exact dictLookup_map_cases m k2 v2 hl
  · have hany' : m.any (fun p => p.1.keyEq k) = false := Bool.eq_false_iff.mpr hany
    rw [hany'] at h
    simp at h
    subst h
    exact dictLookup_append_cases m k2 v2 hl

theorem dictLookup_append_left {m l : List (Json × Json)} {k2 : Json} {x : Json}
    (h : dictLookup m k2 = some x) : dictLookup (m ++ l) k2 = some x := by
  induction m with
  | nil => simp [dictLookup] at h
  | cons p rest ih =>
    by_cases hp : p.1.keyEq k2 = true
    · simp [dictLookup, hp] at h ⊢
      exact h
    · have hp' : p.1.keyEq k2 = false := Bool.eq_false_iff.mpr hp
      simp [dictLookup, hp'] at h ⊢
      exact ih h

theorem dictLookup_map_mono {k v k2 : Json} :
    ∀ m : List (Json × Json), (dictLookup m k2).isSome = true →
    (dictLookup (m.map (fun p => if p.1.keyEq k then (p.1, v) else p)) k2).isSome = true := by
  intro m
  induction m with
  | nil => simp [dictLookup]
  | cons p rest ih =>
    intro hmem
    by_cases hp2 : p.1.keyEq k2 = true
    · by_cases hp : p.1.keyEq k = true <;>
        simp [dictLookup, hp, Bool.eq_false_iff.mpr, hp2]
    · have hp2' : p.1.keyEq k2 = false := Bool.eq_false_iff.mpr hp2
      rw [dictLookup, if_neg (by simp [hp2'])] at hmem
      by_cases hp : p.1.keyEq k = true
      · simp [dictLookup, hp, hp2']
        exact ih hmem
      · have hp' : p.1.keyEq k = false := Bool.eq_false_iff.mpr hp
        simp [dictLookup, hp', hp2']
        exact ih hmem

theorem dictSet_ok_mem_mono {m m2 : List (Json × Json)} {k v k2 : Json}
    (h : dictSet m k v = .ok m2) (hmem : (dictLookup m k2).isSome = true) :
    (dictLookup m2 k2).isSome = true := by
  have hk := dictSet_ok_hashable h
  simp [dictSet, hk] at h
  by_cases hany : m.any (fun p => p.1.keyEq k) = true
  · rw [hany] at h
    simp at h
    subst h
    exact dictLookup_map_mono m hmem
  · have hany' : m.any (fun p => p.1.keyEq k) = false := Bool.eq_false_iff.mpr hany
    rw [hany'] at h
    simp at h
    subst h
    cases hl : dictLookup m k2 with
    | none => rw [hl] at hmem; simp at hmem
    | some x => rw [dictLookup_append_left hl]; rfl

theorem buildAux_cons_inv {attr : Json} {rest : List Json} {acc m : List (Json × Json)}
    (h : buildSnapshotAux (attr :: rest) acc = .ok m) :
    ∃ acc2, buildSnapshotAux rest acc2 = .ok m ∧
      ((acc2 = acc ∧ pyInStr "value" attr = .ok false) ∨
       ∃ k0 v0, attr.getItem "value" = .ok v0 ∧ attr.getItem "name" = .ok k0 ∧
         dictSet acc k0 v0 = .ok acc2) := by
  simp only [buildSnapshotAux] at h
  split at h
  · simp at h
  · next hfalse => exact ⟨acc, h, Or.inl ⟨rfl, hfalse⟩⟩
  · next htrue =>
    split at h
    · simp at h
    · next v0 hv0 =>
      split at h
      · simp at h
      · next k0 hk0 =>
        split at h
        · simp at h
        · next acc2 hset => exact ⟨acc2, h, Or.inr ⟨k0, v0, hv0, hk0, hset⟩⟩

theorem buildAux_ok_sound :
    ∀ (attrs : List Json) (acc m : List (Json × Json)),
    buildSnapshotAux attrs acc = .ok m →
    ∀ k v, dictLookup m k = some v →
      dictLookup acc k = some v ∨
      ∃ fs, Json.obj fs ∈ attrs ∧ lookupField fs "name" = some k ∧
        lookupField fs "value" = some v := by
  intro attrs
  induction attrs with
  | nil =>
    intro acc m h k v hl
    simp only [buildSnapshotAux] at h
    simp at h
    subst h
    exact Or.inl hl
  | cons attr rest ih =>
    intro acc m h k v hl
    obtain ⟨acc2, hrest, hstep⟩ := buildAux_cons_inv h
    rcases ih acc2 m hrest k v hl with h1 | ⟨fs, hmem, hn, hv⟩
    · rcases hstep with ⟨rfl, _⟩ | ⟨k0, v0, hv0, hk0, hset⟩
      · exact Or.inl h1
      · rcases dictSet_ok_lookup hset k v h1 with ⟨ek, ev⟩ | h2
        · obtain ⟨fields, heqa, hlfv⟩ := getItem_ok hv0
          obtain ⟨fields2, heqa2, hlfn⟩ := getItem_ok hk0
          rw [heqa] at heqa2
          injection heqa2 with hf
          subst hf
          refine Or.inr ⟨fields, ?_, ?_, ?_⟩
          · rw [← heqa]; exact List.mem_cons_self _ _
          · rw [hlfn, ← ek]
          · rw [hlfv, ← ev]
        · exact Or.inl h2
    · exact Or.inr ⟨fs, List.mem_cons_of_mem _ hmem, hn, hv⟩

theorem buildAux_ok_preserve :
    ∀ (attrs : List Json) (acc m : List (Json × Json)),
    buildSnapshotAux attrs acc = .ok m →
    ∀ k, (dictLookup acc k).isSome = true → (dictLookup m k).isSome = true := by
  intro attrs
  induction attrs with
  | nil =>
    intro acc m h k hk
    simp only [buildSnapshotAux] at h
    simp at h
    subst h
    exact hk
  | cons attr rest ih =>
    intro acc m h k hk
    obtain ⟨acc2, hrest, hstep⟩ := buildAux_cons_inv h
    rcases hstep with ⟨rfl, _⟩ | ⟨k0, v0, _, _, hset⟩
    · exact ih acc2 m hrest k hk
    · exact ih acc2 m hrest k (dictSet_ok_mem_mono hset hk)

theorem buildAux_ok_complete :
    ∀ (attrs : List Json) (acc m : List (Json × Json)),
    buildSnapshotAux attrs acc = .ok m →
    ∀ fs k v, Json.obj fs ∈ attrs → lookupField fs "name" = some k →
      lookupField fs "value" = some v → (dictLookup m k).isSome = true := by
  intro attrs
  induction attrs with
  | nil =>
    intro acc m _ fs k v hmem _ _
    simp at hmem
  | cons attr rest ih =>
    intro acc m h fs k v hmem hn hv
    rcases List.mem_cons.mp hmem with heq | hmem2
    · subst heq
      obtain ⟨acc2, hrest, hstep⟩ := buildAux_cons_inv h
      rcases hstep with ⟨_, hfalse⟩ | ⟨k0, v0, hv0, hk0, hset⟩
      · rw [show pyInStr "value" (Json.obj fs) = .ok (lookupField fs "value").isSome from rfl,
           hv] at hfalse
        simp at hfalse
      · have hv0' : v0 = v := by
          obtain ⟨fields, heqa, hlfv⟩ := getItem_ok hv0
          injection heqa with hf
          subst hf
          rw [hv] at hlfv
          injection hlfv with e
          exact e.symm
        have hk0' : k0 = k := by
          obtain ⟨fields, heqa, hlfn⟩ := getItem_ok hk0
          injection heqa with hf
          subst hf
          rw [hn] at hlfn
          injection hlfn with e
          exact e.symm
        have hlook := dictSet_ok_lookup_self hset
        rw [← hk0']
        exact buildAux_ok_preserve rest acc2 m hrest k0 (by rw [hlook]; rfl)
    · obtain ⟨acc2, hrest, _⟩ := buildAux_cons_inv h
      exact ih acc2 m hrest fs k v hmem2 hn hv

theorem processFrames_no_status (c : Codecs) (b : Bool) :
    ∀ frames, SessEvent.gatewayStatus b ∉ (processFrames c frames).1 := by
  intro frames
  induction frames with
  | nil => simp [processFrames]
  | cons f rest ih =>
    cases f with
    | text s =>
      cases hp : parseMessage c s with
      | error e => simp [processFrames, hp]
      | ok o =>
        cases o with
        | ignored => simpa [processFrames, hp] using ih
        | fired d a =>
          simp [processFrames, hp]
          exact ih
    | other => simpa [processFrames] using ih

theorem processFrames_append_error (c : Codecs) {s : String} {e : PyErr}
    (hs : parseMessage c s = .error e) :
    ∀ (pre rest : List WsMsg), (processFrames c pre).2 = none →
    processFrames c (pre ++ .text s :: rest) = ((processFrames c pre).1, some e) := by
  intro pre
  induction pre with
  | nil =>
    intro rest _
    simp [processFrames, hs]
  | cons f pre2 ih =>
    intro rest hnone
    cases f with
    | text t =>
      cases hp : parseMessage c t with
      | error e2 => simp [processFrames, hp] at hnone
      | ok o =>
        cases o with
        | ignored =>
          simp only [processFrames, hp] at hnone ⊢
          exact ih rest hnone
        | fired d a =>
          simp only [processFrames, hp, List.cons_append] at hnone ⊢
          simp only [List.append_eq]
          rw [ih rest hnone]
    | other =>
      simp only [processFrames] at hnone ⊢
      exact ih rest hnone

theorem listenIter_stale_no_false (c : Codecs) {p rp : String}
    (hne : (p == rp) = false) :
    ∀ (b : Bool) (script : ConnScript),
    SessEvent.gatewayStatus false ∉ (listenIter c p rp b script).events := by
  intro b script
  cases script with
  | failBefore => cases b <;> simp [listenIter, hne]
  | session frames tail =>
    have h1 := processFrames_no_status c false frames
    intro hmem
    have hne' : (if p == rp then [SessEvent.gatewayStatus false] else []) = [] := by
      rw [hne]; rfl
    simp only [listenIter, hne', List.append_nil] at hmem
    rcases List.mem_cons.mp hmem with heq | hmem2
    · exact absurd heq (by simp)
    · rcases List.mem_append.mp hmem2 with h3 | h4
      · exact h1 h3
      · by_cases hex : ((processFrames c frames).2.isSome || (tail == SessionEnd.socketError)) = true
        · simp [hex] at h4
        · simp [Bool.eq_false_iff.mpr hex] at h4

theorem listenLoop_stale_no_false (c : Codecs) {p rp : String}
    (hne : (p == rp) = false) :
    ∀ (fuel i : Nat) (b : Bool) (signal : Nat → Bool) (scripts : Nat → ConnScript),
    SessEvent.gatewayStatus false ∉ (listenLoop c p rp signal scripts fuel i b).1 := by
  intro fuel
  induction fuel with
  | zero => intro i b signal scripts; simp [listenLoop]
  | succ n ih =>
    intro i b signal scripts
    by_cases hs : signal i = true
    · simp [listenLoop, hs]
    · have hs' : signal i = false := Bool.eq_false_iff.mpr hs
      by_cases hc : (listenIter c p rp b (scripts i)).crashed = true
      · simp [listenLoop, hs', hc]
        exact listenIter_stale_no_false c hne b (scripts i)
      · have hc' : (listenIter c p rp b (scripts i)).crashed = false :=
          Bool.eq_false_iff.mpr hc
        simp [listenLoop, hs', hc']
        exact ⟨listenIter_stale_no_false c hne b (scripts i),
               ih (i + 1) (listenIter c p rp b (scripts i)).bound signal scripts⟩

theorem replaceHttpWss_no_occurrence :
    ∀ s : List Char, hasOccurrence httpPat s = false → replaceHttpWss s = s := by
  intro s
  induction s with
  | nil => intro _; simp [replaceHttpWss]
  | cons c cs ih =>
    intro h
    simp only [hasOccurrence, Bool.or_eq_false_iff] at h
    simp [replaceHttpWss, h.1, ih h.2]

theorem replaceHttpWss_at_occurrence :
    ∀ pre suf : List Char, pre.contains 'h' = false →
    replaceHttpWss (pre ++ httpPat ++ suf) = pre ++ wssPat ++ replaceHttpWss suf := by
  intro pre
  induction pre with
  | nil =>
    intro suf _
    have hl : leadsWith httpPat (httpPat ++ suf) = true := leadsWith_append _ _
    simp only [List.nil_append]
    rw [show httpPat ++ suf = 'h' :: ('t' :: 't' :: 'p' :: ':' :: '/' :: '/' :: suf) from rfl]
    rw [replaceHttpWss]
    rw [show leadsWith httpPat ('h' :: 't' :: 't' :: 'p' :: ':' :: '/' :: '/' :: suf) = true from hl]
    simp
  | cons c pre2 ih =>
    intro suf hcont
    simp only [List.contains_cons, Bool.or_eq_false_iff] at hcont
    have hch : ('h' == c) = false := hcont.1
    have hlw : leadsWith httpPat (c :: (pre2 ++ httpPat ++ suf)) = false := by
      simp [httpPat, leadsWith, hch]
    rw [List.cons_append, List.cons_append, replaceHttpWss]
    rw [show (pre2 ++ httpPat) ++ suf = pre2 ++ httpPat ++ suf from rfl] at hlw ⊢
    rw [hlw]
    simp only [Bool.false_eq_true, if_false]
    rw [ih suf hcont.2]
    simp

theorem filter_comp_local (p q : Char → Bool) :
    ∀ l : List Char, (l.filter p).filter q = l.filter (fun c => p c && q c) := by
  intro l
  induction l with
  | nil => rfl
  | cons c cs ih =>
    by_cases hp : p c = true
    · by_cases hq : q c = true
      · simp [List.filter_cons, hp, hq, ih]
      · simp [List.filter_cons, hp, Bool.eq_false_iff.mpr hq, ih]
    · simp [List.filter_cons, Bool.eq_false_iff.mpr hp, ih]

theorem removeChain_eq_filter (body : List Char) :
    removeChar ' ' (removeChar '\n' (removeChar '\r' (removeChar '\t' body)))
      = body.filter (fun c => !wsChar c) := by
  rw [removeChar_eq_filter, removeChar_eq_filter, removeChar_eq_filter, removeChar_eq_filter]
  rw [filter_comp_local, filter_comp_local, filter_comp_local]
  apply List.filter_congr
  intro c _
  cases h1 : c == '\t' <;> cases h2 : c == '\r' <;> cases h3 : c == '\n' <;>
    cases h4 : c == ' ' <;> simp [wsChar, h1, h2, h3, h4]

/-! The claims. -/

/-- Claim C1, counterexample: a text frame whose decode fails does not make
`listen_devices` merely drop that frame — the exception escapes
`_parse_message` into the bare `except:` of the connection loop, so the
30-second-sleep reconnect path is taken and the following frame (which
would have produced a device-data event) is never processed. -/
theorem decode_error_reconnects_cex :
    parseMessage cDemo "BAD" = .error .valueError ∧
    listenIter cDemo "p" "p" true (.session [.text "BAD", .text "GOOD"] .closed)
      = ⟨[.gatewayStatus true, .slept 30, .gatewayStatus false], true, false⟩ :=
  ⟨rfl, rfl⟩

/-- Claim C1, amended: a decode error while parsing a text frame is caught
by the connection loop's blanket exception handler: the remaining frames of
that connection are dropped, the session sleeps 30 seconds and loops back
to reconnect — the same path taken by socket-level errors — and
`listen_devices` itself does not terminate (crashed = false). -/
theorem decode_error_takes_reconnect_path
    (c : Codecs) (p rp : String) (b : Bool) (pre rest : List WsMsg)
    (s : String) (e : PyErr) (tl : SessionEnd)
    (hs : parseMessage c s = .error e)
    (hpre : (processFrames c pre).2 = none) :
    listenIter c p rp b (.session (pre ++ .text s :: rest) tl)
      = ⟨.gatewayStatus true :: (processFrames c pre).1 ++ [.slept 30]
          ++ (if p == rp then [.gatewayStatus false] else []), true, false⟩ := by
  simp only [listenIter]
  rw [processFrames_append_error c hs pre rest hpre]
  simp

/-- Claim C1, witness for the amended theorem at a concrete input. -/
theorem decode_error_takes_reconnect_path_wit :
    parseMessage cDemo "BAD" = Except.error PyErr.valueError ∧
    (processFrames cDemo [WsMsg.text "GOOD"]).2 = none ∧
    listenIter cDemo "pX" "pY" false
        (.session ([WsMsg.text "GOOD"] ++ WsMsg.text "BAD" :: []) .closed)
      = ⟨SessEvent.gatewayStatus true :: (processFrames cDemo [WsMsg.text "GOOD"]).1
          ++ [SessEvent.slept 30]
          ++ (if ("pX" : String) == "pY" then [SessEvent.gatewayStatus false] else []),
          true, false⟩ :=
  ⟨rfl, rfl,
   decode_error_takes_reconnect_path cDemo "pX" "pY" false [WsMsg.text "GOOD"] []
     "BAD" PyErr.valueError .closed rfl rfl⟩

/-- Claim C2, counterexample: a superseded session (its process id differs
from the recorded one) still emits a gateway-status-changed event — the
status-True emission on (re)connect at line 270 is not guarded by the
process-id comparison; only the status-False emission in the finally block
is. -/
theorem stale_session_emits_connect_status_cex :
    ¬(("old" : String) = "new") ∧
    listenIter cDemo "old" "new" true (.session [] .closed)
      = ⟨[SessEvent.gatewayStatus true], true, false⟩ :=
  ⟨by decide, rfl⟩

/-- Claim C2, amended: at most one session is authoritative at a time (the
one whose process id equals the recorded one), and the status-False
emission of the cleanup path is suppressed for a stale session throughout
the whole loop; the status-True emission on connect is, however,
unconditional. -/
theorem stale_session_cleanup_status_suppressed :
    (∀ p1 p2 rp : String, authoritative p1 rp = true → authoritative p2 rp = true →
       p1 = p2) ∧
    (∀ (c : Codecs) (p rp : String), (p == rp) = false →
       ∀ (signal : Nat → Bool) (scripts : Nat → ConnScript) (fuel i : Nat) (b : Bool),
       SessEvent.gatewayStatus false ∉ (listenLoop c p rp signal scripts fuel i b).1) := by
  constructor
  · intro p1 p2 rp h1 h2
    have e1 : p1 = rp := by simpa [authoritative] using h1
    have e2 : p2 = rp := by simpa [authoritative] using h2
    rw [e1, e2]
  · intro c p rp hne signal scripts fuel i b
    exact listenLoop_stale_no_false c hne fuel i b signal scripts

/-- Claim C2, witness for the amended theorem at concrete inputs. -/
theorem stale_session_cleanup_status_suppressed_wit :
    (("sOld" : String) == "sNew") = false ∧
    SessEvent.gatewayStatus false ∉
      (listenLoop cDemo "sOld" "sNew" (fun _ => false)
        (fun _ => ConnScript.session [] .closed) 3 0 false).1 ∧
    ("pZ" : String) = "pZ" :=
  ⟨by decide,
   stale_session_cleanup_status_suppressed.2 cDemo "sOld" "sNew" (by decide)
     (fun _ => false) (fun _ => ConnScript.session [] .closed) 3 0 false,
   stale_session_cleanup_status_suppressed.1 "pZ" "pZ" "pZ" (by decide) (by decide)⟩

/-- Claim C3: for all inputs, `_sign` returns the SHA-256 hex digest of the
concatenation, in this exact order with no separators, of the URL path with
query stripped, the body with every space, tab, CR and LF removed, appId,
appKey, and the timestamp. As a Lean function it is deterministic and has
no side effects; the hex digest of hashlib (lowercase by its contract) is
abstracted as the `sha256hex` parameter, applied to the exact content
string. -/
theorem sign_concatenation_spec
    (sha256hex : List Char → String) (app_id app_key timestamp body url : List Char) :
    sign sha256hex app_id app_key timestamp body url
      = sha256hex (signContentSpec app_id app_key timestamp body url) := by
  unfold sign signContentSpec
  rw [removeChain_eq_filter]

/-- Claim C4: evaluation at the failing input. With the cancel signal never
set and the very first connection attempt failing before the control
listener was ever registered, the loop sleeps 30 seconds and then crashes
(the `finally` block calls the unbound local `cancel_control_listen`,
raising UnboundLocalError) instead of retrying — contradicting "retries
indefinitely" and "exits only when the cancellation signal is set". -/
theorem first_connect_failure_crashes_loop :
    listenLoop cDemo "p0" "p0" (fun _ => false) (fun _ => ConnScript.failBefore) 5 0 false
      = ([SessEvent.slept 30], LoopExit.crashed) := rfl

/-- Claim C5: a derived snapshot mapping contains exactly the entries whose
source attribute object has a `value` field: every entry of the mapping
comes from an attribute object with that name and that value, and every
attribute object carrying both a name and a value yields an entry; an
attribute lacking `value` contributes nothing. -/
theorem snapshot_exactly_valued_attributes
    (attrs : List Json) (m : List (Json × Json))
    (h : buildSnapshot attrs = .ok m) :
    (∀ k v, dictLookup m k = some v →
       ∃ fs, Json.obj fs ∈ attrs ∧ lookupField fs "name" = some k ∧
         lookupField fs "value" = some v) ∧
    (∀ fs k v, Json.obj fs ∈ attrs → lookupField fs "name" = some k →
       lookupField fs "value" = some v → (dictLookup m k).isSome = true) := by
  constructor
  · intro k v hl
    rcases buildAux_ok_sound attrs [] m h k v hl with h1 | h2
    · simp [dictLookup] at h1
    · exact h2
  · intro fs k v hmem hn hv
    exact buildAux_ok_complete attrs [] m h fs k v hmem hn hv

/-- Claim C5, witness at a concrete attribute array (one attribute with a
value, one without). -/
theorem snapshot_exactly_valued_attributes_wit :
    buildSnapshot [Json.obj [("name", Json.str "targetTemp"), ("value", Json.str "42")],
                   Json.obj [("name", Json.str "noVal")]]
      = .ok [(Json.str "targetTemp", Json.str "42")] ∧
    (dictLookup [(Json.str "targetTemp", Json.str "42")] (Json.str "targetTemp")).isSome
      = true :=
  ⟨rfl,
   (snapshot_exactly_valued_attributes
       [Json.obj [("name", Json.str "targetTemp"), ("value", Json.str "42")],
        Json.obj [("name", Json.str "noVal")]]
       [(Json.str "targetTemp", Json.str "42")] rfl).2
     [("name", Json.str "targetTemp"), ("value", Json.str "42")]
     (Json.str "targetTemp") (Json.str "42") (List.mem_cons_self _ _) rfl rfl⟩

/-- Claim C6: absence of `retCode`, or `retCode == '00000'`, is success (no
exception); any other `retCode` raises `HaierClientException` whose message
is the literal prefix followed by the envelope's `retInfo` verbatim (and
`retInfo` occurs in that message as a substring). -/
theorem response_envelope_success_and_failure (fs : List (String × Json)) :
    ((lookupField fs "retCode" = none ∨ lookupField fs "retCode" = some (Json.str "00000")) →
       assertResponseSuccessful (Json.obj fs) = .ok ()) ∧
    (∀ rc info, lookupField fs "retCode" = some rc → rc.eqStr "00000" = false →
       lookupField fs "retInfo" = some (Json.str info) →
       assertResponseSuccessful (Json.obj fs)
         = .error (.haierException ("接口返回异常: " ++ info)) ∧
       hasOccurrence info.data ("接口返回异常: " ++ info).data = true) := by
  constructor
  · intro h
    rcases h with h | h
    · simp [assertResponseSuccessful, pyInStr, h]
    · simp [assertResponseSuccessful, pyInStr, h, Json.getItem, Json.eqStr]
  · intro rc info hrc hne hinfo
    refine ⟨?_, ?_⟩
    · simp [assertResponseSuccessful, pyInStr, hrc, Json.getItem, hne, hinfo]
    · show hasOccurrence info.data ("接口返回异常: ".data ++ info.data) = true
      exact hasOccurrence_self_append _ _

/-- Claim C6, witness: a success envelope and a failure envelope. -/
theorem response_envelope_success_and_failure_wit :
    assertResponseSuccessful (Json.obj [("retCode", Json.str "00000"), ("data", Json.null)])
      = .ok () ∧
    assertResponseSuccessful (Json.obj [("retCode", Json.str "99999"), ("retInfo", Json.str "boom")])
      = .error (.haierException ("接口返回异常: " ++ "boom")) :=
  ⟨(response_envelope_success_and_failure
       [("retCode", Json.str "00000"), ("data", Json.null)]).1 (Or.inr rfl),
   ((response_envelope_success_and_failure
       [("retCode", Json.str "99999"), ("retInfo", Json.str "boom")]).2
     (Json.str "99999") "boom" rfl (by decide) rfl).1⟩

/-- Claim C7, counterexample: a persisted record of the wrong shape that is
not a bare string — a truthy object without an `attributes` key — is not
deleted and not refetched: `get_digital_model_from_cache` raises KeyError
on it instead of treating it as a cache miss. -/
theorem corrupt_nonstring_cache_raises_cex :
    getDigitalModelFromCache cexCacheEnv demoDevice
      = { result := .error .keyError, removed := false, saved := none,
          remoteCalled := false } := rfl

/-- Claim C7, amended: a bare-string cache record is deleted and treated as
a miss — the attributes are fetched remotely, `{device metadata,
attributes}` is persisted, and the fresh attributes are returned without
raising; a record with an `attributes` key (a cache hit) is returned as-is
without any remote call. Wrong-shaped records other than a bare string are
not handled (see the counterexample). -/
theorem cache_string_corrupt_and_hit_behavior
    (env : CacheEnv) (device : DeviceMeta) :
    (∀ s gr, env.loadResult = .ok (some (.str s)) → env.remoteResult = .ok gr →
       getDigitalModelFromCache env device
         = { result := .ok gr.attributes, removed := true,
             saved := some (cachePayload device gr.attributes), remoteCalled := true }) ∧
    (∀ fs attrs, env.loadResult = .ok (some (.obj fs)) → fs ≠ [] →
       lookupField fs "attributes" = some attrs →
       getDigitalModelFromCache env device
         = { result := .ok attrs, removed := false, saved := none,
             remoteCalled := false }) := by
  constructor
  · intro s gr hload hremote
    simp [getDigitalModelFromCache, hload, hremote]
  · intro fs attrs hload hne hattr
    have htruthy : (Json.obj fs).pyTruthy = true := by
      cases fs with
      | nil => exact absurd rfl hne
      | cons a l => rfl
    simp [getDigitalModelFromCache, hload, htruthy, Json.getItem, hattr]

/-- Claim C7, witness for the amended theorem: a bare-string record and a
well-shaped cached record. -/
theorem cache_string_corrupt_and_hit_behavior_wit :
    getDigitalModelFromCache strCacheEnv demoDevice
      = { result := .ok (Json.arr []), removed := true,
          saved := some (cachePayload demoDevice (Json.arr [])), remoteCalled := true } ∧
    getDigitalModelFromCache hitCacheEnv demoDevice
      = { result := .ok (Json.arr []), removed := false, saved := none,
          remoteCalled := false } :=
  ⟨(cache_string_corrupt_and_hit_behavior strCacheEnv demoDevice).1 "junk"
     ⟨Json.arr [], false⟩ rfl rfl,
   (cache_string_corrupt_and_hit_behavior hitCacheEnv demoDevice).2
     [("attributes", Json.arr [])] (Json.arr []) rfl (by simp) rfl⟩

/-- Claim C8: a success-envelope digital-model response whose detail map
lacks the requested device id makes `get_digital_model` return an empty
attribute list, taking the warning branch, without raising. -/
theorem missing_device_digital_model_empty
    (loads : String → Except PyErr Json) (fs dfs : List (String × Json))
    (deviceId : String)
    (hok : assertResponseSuccessful (Json.obj fs) = .ok ())
    (hdetail : lookupField fs "detailInfo" = some (Json.obj dfs))
    (hmiss : lookupField dfs deviceId = none) :
    getDigitalModel loads (Json.obj fs) deviceId = .ok ⟨Json.arr [], true⟩ := by
  simp [getDigitalModel, hok, Json.getItem, hdetail, pyInStr, hmiss]

/-- Claim C8, witness at a concrete response. -/
theorem missing_device_digital_model_empty_wit :
    getDigitalModel (fun _ => .error .valueError)
        (Json.obj [("retCode", Json.str "00000"), ("detailInfo", Json.obj [])]) "D1"
      = .ok ⟨Json.arr [], true⟩ :=
  missing_device_digital_model_empty _ _ [] "D1" rfl rfl rfl

/-- Claim C9: an inbound frame whose parsed envelope has a topic different
from `GenMsgDown`, or whose `content.businType` differs from
`DigitalModel`, is ignored by `_parse_message`: the result is `ignored`, so
no snapshot is built and no device-data-changed event is fired. -/
theorem non_digitalmodel_frames_ignored
    (c : Codecs) (msg : String) (m : Json)
    (hload : c.jsonLoads msg = .ok m) :
    (∀ t, m.getItem "topic" = .ok t → t.eqStr "GenMsgDown" = false →
       parseMessage c msg = .ok .ignored) ∧
    (∀ content bt, m.getItem "topic" = .ok (Json.str "GenMsgDown") →
       m.getItem "content" = .ok content → content.getItem "businType" = .ok bt →
       bt.eqStr "DigitalModel" = false → parseMessage c msg = .ok .ignored) := by
  constructor
  · intro t ht hne
    simp [parseMessage, hload, ht, hne]
  · intro content bt ht hc hb hne
    have htop : (Json.str "GenMsgDown").eqStr "GenMsgDown" = true := rfl
    simp [parseMessage, hload, ht, hc, hb, hne, htop]

/-- Claim C9, witness: a wrong-topic frame and a wrong-businType frame. -/
theorem non_digitalmodel_frames_ignored_wit :
    parseMessage cDemo "T1" = .ok .ignored ∧ parseMessage cDemo "T2" = .ok .ignored :=
  ⟨(non_digitalmodel_frames_ignored cDemo "T1" wrongTopicEnvelope rfl).1
     (Json.str "Other") rfl (by decide),
   (non_digitalmodel_frames_ignored cDemo "T2" wrongBusinEnvelope rfl).2
     (Json.obj [("businType", Json.str "Else")]) (Json.str "Else") rfl rfl rfl (by decide)⟩

/-- Claim C10: the gateway-URL rewrite is a plain substring replacement of
every occurrence of `http://` by `wss://`, scanning the whole string: an
address containing no `http://` substring (such as an ordinary
`https://...` address) is returned completely unchanged, and an occurrence
is replaced wherever it sits, not only as a scheme prefix at the start. -/
theorem gateway_url_rewrite_properties :
    (∀ s : List Char, hasOccurrence httpPat s = false → replaceHttpWss s = s) ∧
    (∀ pre suf : List Char, pre.contains 'h' = false →
       replaceHttpWss (pre ++ httpPat ++ suf) = pre ++ wssPat ++ replaceHttpWss suf) :=
  ⟨replaceHttpWss_no_occurrence, replaceHttpWss_at_occurrence⟩

/-- Claim C10, witness: an `https://` address is unchanged, and a mid-string
occurrence is rewritten. -/
theorem gateway_url_rewrite_properties_wit :
    hasOccurrence httpPat "https://uws.haier.net/path".toList = false ∧
    replaceHttpWss "https://uws.haier.net/path".toList = "https://uws.haier.net/path".toList ∧
    replaceHttpWss ("x:".toList ++ httpPat ++ "gw".toList)
      = "x:".toList ++ wssPat ++ replaceHttpWss "gw".toList :=
  ⟨by decide, gateway_url_rewrite_properties.1 _ (by decide),
   gateway_url_rewrite_properties.2 "x:".toList "gw".toList (by decide)⟩

end Haier
